import Mathlib

/-!
Shallow embedding of the asset-operation protocol schema of
`libraries/chain/include/graphene/chain/protocol/asset_ops.hpp`
(graphene / BitShares asset operations), together with theorems checking
the natural-language specification against it.

Structures and member functions keep the source's names.  Function bodies
that are inline in the header (`maker_asset_options_extension::validate`,
`asset_settle_cancel_operation::validate` / `calculate_fee`, every
`fee_payer`, the `FC_REFLECT` field-order registrations and every default
member initializer) are translated directly from the source.  Bodies that
live in `libraries/chain/asset_ops.cpp` — which is not part of the source
tree at hand — are modelled from the specification and carry a doc comment
saying so.
-/

/-- Modelled from the spec: `GRAPHENE_MAX_SHARE_SUPPLY` is defined in
`graphene/chain/config.hpp`, outside the available source; the chain's
standard value is `10^15` (the spec's scenario 1 uses `max_supply = 10^15`
as an admissible value). -/
def GRAPHENE_MAX_SHARE_SUPPLY : Int := 1000000000000000

/-- Modelled from the spec: `GRAPHENE_BLOCKCHAIN_PRECISION` is defined in
`graphene/chain/config.hpp`, outside the available source; the chain's
standard value is `10^5` (five decimal digits of core-asset precision).
The claims only need that it is a fixed constant greater than 1. -/
def GRAPHENE_BLOCKCHAIN_PRECISION : Nat := 100000

/-- Modelled from the spec: the `market_issued` bit of
`asset_issuer_permission_flags` is defined in `graphene/chain/types`,
outside the available source.  The claims use it only as a fixed one-bit
mask; it is chosen here as bit 8, inside the issuer-permission mask. -/
def MARKET_ISSUED : Nat := 256

/-- Modelled from the spec: `UIA_ASSET_ISSUER_PERMISSION_MASK` is defined
outside the available source.  The claims use it only as a fixed bit mask
containing every grantable permission bit; it is chosen here as the low
nine bits (so that it contains `MARKET_ISSUED`). -/
def UIA_ASSET_ISSUER_PERMISSION_MASK : Nat := 511

/-- The two error kinds of the schema layer (spec section 7). -/
inductive error_kind where
  | invariant_violation : error_kind
  | unknown_extension : error_kind
deriving DecidableEq

instance : DecidableEq (Except error_kind Unit)
  | .ok (), .ok () => isTrue rfl
  | .ok (), .error _ => isFalse (fun h => Except.noConfusion h)
  | .error _, .ok () => isFalse (fun h => Except.noConfusion h)
  | .error x, .error y =>
    if h : x = y then isTrue (by rw [h])
    else isFalse (fun hh => h (by cases hh; rfl))

/-- `FC_ASSERT cond rest` models one `FC_ASSERT( cond ); …rest…` step of a
C++ validate body: if `cond` holds execution continues with `rest`,
otherwise an exception of kind `invariant_violation` is raised. -/
def FC_ASSERT (c : Prop) [Decidable c] (rest : Except error_kind Unit) :
    Except error_kind Unit :=
  if c then rest else .error .invariant_violation

/-- `object_id<…>` instance handles are opaque numeric ids. -/
abbrev account_id_type := Nat

abbrev asset_id_type := Nat

abbrev force_settlement_id_type := Nat

/-- `share_type` is a signed 64-bit integer amount; every value appearing
in this development is far below `2^63`, so it is modelled as `Int`. -/
abbrev share_type := Int

/-- `asset`: an amount together with the id of the asset it is counted in
(`graphene/chain/protocol/asset.hpp`, default-constructed to zero). -/
structure asset where
  amount : share_type := 0
  asset_id : asset_id_type := 0
deriving DecidableEq

/-- `price`: a ratio of two `asset`s. -/
structure price where
  base : asset := {}
  quote : asset := {}
deriving DecidableEq

/-- Modelled from the spec: `price_feed` is declared in
`graphene/chain/protocol/asset.hpp`, outside the available source.  Per
spec section 6 it carries a call-limit price, a short-limit price and a
settlement price; no claim inspects its fields. -/
structure price_feed where
  call_limit : price := {}
  short_limit : price := {}
  settlement_price : price := {}
deriving DecidableEq

/-- Modelled from the spec: `memo_data` is declared in
`graphene/chain/protocol/memo.hpp`, outside the available source.  Per
spec section 2 it is an encrypted blob plus a nonce and the sender and
recipient public keys (33-byte compressed points, named `from` and `to`
in the source; `from` is reserved in Lean). -/
structure memo_data where
  from_key : Nat := 0
  to_key : Nat := 0
  nonce : Nat := 0
  message : List Nat := []
deriving DecidableEq

/-- `extensions_type` (`graphene/chain/protocol/base.hpp`, outside the
available source) is a set of the empty future-extensions variant; no
claim inspects its contents. -/
abbrev extensions_type := List Unit

/-- `maker_asset_options_extension` (header lines 33-80). -/
structure maker_asset_options_extension where
  is_maker_issued_asset : Bool := false
  maker_fee_percent : Nat := 0
  maker_reward_percent : Nat := 0
  maker_reward_asset : Option asset_id_type := none
  daily_reward_decay_rate : Nat := 200
deriving DecidableEq

/-- `maker_asset_options_extension::validate` (header lines 73-79),
translated assert-for-assert from the inline body. -/
def maker_asset_options_extension.validate
    (e : maker_asset_options_extension) : Except error_kind Unit :=
  FC_ASSERT (e.daily_reward_decay_rate ≤ 10000) <|
  FC_ASSERT (e.maker_reward_percent ≤ 10000) <|
  FC_ASSERT (e.maker_fee_percent ≤ 10000) <|
  if e.is_maker_issued_asset then
    FC_ASSERT (e.maker_reward_percent = 0) (.ok ())
  else .ok ()

/-- `asset_options_extension = static_variant<void_t, maker_asset_options_extension>`
(header line 82): tag 0 is the empty placeholder, tag 1 the maker extension. -/
inductive asset_options_extension where
  | void_ext : asset_options_extension
  | maker : maker_asset_options_extension → asset_options_extension
deriving DecidableEq

/-- The static-variant tag of an `asset_options_extension`. -/
def asset_options_extension.tag : asset_options_extension → Nat
  | .void_ext => 0
  | .maker _ => 1

/-- Per-variant validation of an `asset_options_extension`: the empty
variant is trivially valid, the maker variant uses its own `validate`. -/
def asset_options_extension.validate :
    asset_options_extension → Except error_kind Unit
  | .void_ext => .ok ()
  | .maker e => e.validate

/-- Boolean form of "`e.validate` succeeds", used inside decidable
validation conditions. -/
def asset_options_extension.validate_ok (e : asset_options_extension) : Bool :=
  match e.validate with
  | .ok _ => true
  | .error _ => false

/-- `asset_options` (header lines 90-137) with the source's default member
initializers.  `flat_set`s of ids are modelled as `Finset Nat`; the
extension set as a list (its tag-uniqueness is checked by `validate`). -/
structure asset_options where
  max_supply : share_type := GRAPHENE_MAX_SHARE_SUPPLY
  market_fee_percent : Nat := 0
  max_market_fee : share_type := GRAPHENE_MAX_SHARE_SUPPLY
  issuer_permissions : Nat := UIA_ASSET_ISSUER_PERMISSION_MASK
  flags : Nat := 0
  core_exchange_rate : price := {}
  whitelist_authorities : Finset account_id_type := ∅
  blacklist_authorities : Finset account_id_type := ∅
  whitelist_markets : Finset asset_id_type := ∅
  blacklist_markets : Finset asset_id_type := ∅
  description : String := ""
  extensions : List asset_options_extension := []
deriving DecidableEq

/-- Bitwise complement within an unsigned 16-bit word: for `x < 2^16`,
`not16 x` is `~x` as C computes it on `uint16_t` operands. -/
def not16 (x : Nat) : Nat := 65535 ^^^ x

/-- Modelled from the spec: the body of `asset_options::validate`
(declared at header line 136) lives in `libraries/chain/asset_ops.cpp`,
which is not in the available source tree; this definition follows spec
section 4.2 check for check.  Duplicate elements in the authority sets
(spec item 7) are unrepresentable in the `Finset` model. -/
def asset_options.validate (o : asset_options) : Except error_kind Unit :=
  FC_ASSERT (0 < o.max_supply) <|
  FC_ASSERT (o.max_supply ≤ GRAPHENE_MAX_SHARE_SUPPLY) <|
  FC_ASSERT (o.market_fee_percent ≤ 10000) <|
  FC_ASSERT (0 ≤ o.max_market_fee) <|
  FC_ASSERT (o.max_market_fee ≤ GRAPHENE_MAX_SHARE_SUPPLY) <|
  FC_ASSERT (o.flags &&& not16 o.issuer_permissions = 0) <|
  FC_ASSERT (o.issuer_permissions &&& not16 UIA_ASSET_ISSUER_PERMISSION_MASK = 0) <|
  FC_ASSERT (¬ (o.whitelist_markets ∩ o.blacklist_markets).Nonempty) <|
  FC_ASSERT (0 < o.core_exchange_rate.base.amount) <|
  FC_ASSERT (0 < o.core_exchange_rate.quote.amount) <|
  FC_ASSERT (o.core_exchange_rate.base.asset_id ≠ o.core_exchange_rate.quote.asset_id) <|
  FC_ASSERT (∀ e ∈ o.extensions, e.validate_ok = true) <|
  FC_ASSERT ((o.extensions.map asset_options_extension.tag).Nodup) (.ok ())

/-- `bitasset_options` (header lines 144-167).  The default member
initializers reference `GRAPHENE_DEFAULT_*` constants from `config.hpp`
(outside the available source); their values do not influence any claim
and the common chain values are used. -/
structure bitasset_options where
  feed_lifetime_sec : Nat := 86400
  minimum_feeds : Nat := 1
  force_settlement_delay_sec : Nat := 86400
  force_settlement_offset_percent : Nat := 0
  maximum_force_settlement_volume : Nat := 2000
  short_backing_asset : asset_id_type := 0
  extensions : extensions_type := []
deriving DecidableEq

/-- Modelled from the spec: the body of `bitasset_options::validate`
(declared at header line 166) lives in `libraries/chain/asset_ops.cpp`,
outside the available source; this follows spec section 4.2 with the
global feed-lifetime floor taken at its stated minimum of 1. -/
def bitasset_options.validate (b : bitasset_options) : Except error_kind Unit :=
  FC_ASSERT (1 ≤ b.feed_lifetime_sec) <|
  FC_ASSERT (b.minimum_feeds ≠ 0) <|
  FC_ASSERT (b.force_settlement_offset_percent ≤ 10000) <|
  FC_ASSERT (b.maximum_force_settlement_volume ≤ 10000) (.ok ())

/-- An uppercase ASCII letter `A`-`Z`. -/
def upper_AZ (c : Char) : Bool := 'A' ≤ c && c ≤ 'Z'

/-- A character admissible in a ticker symbol: `[A-Z0-9.]`. -/
def symbol_char (c : Char) : Bool :=
  upper_AZ c || ('0' ≤ c && c ≤ '9') || c = '.'

/-- Modelled from the spec: `is_valid_symbol` (declared at header line 27)
is implemented in `libraries/chain/asset_ops.cpp`, outside the available
source; this follows spec section 4.1.  The no-adjacent-dots rule is
omitted as vacuous given the at-most-one-dot rule, as the spec notes. -/
def is_valid_symbol (symbol : String) : Bool :=
  let l := symbol.toList
  decide (3 ≤ l.length) && decide (l.length ≤ 16) &&
  (match l.head? with | some c => upper_AZ c | none => false) &&
  (match l.getLast? with | some c => upper_AZ c | none => false) &&
  l.all symbol_char &&
  decide ((l.filter (fun c => c = '.')).length ≤ 1)

/-- Byte length of the fc varint encoding of a length `n` (a 32-bit
`unsigned_int`, hence at most five 7-bit groups); spec section 6 dictates
`varint(length)` prefixes for strings and sets. -/
def varint_size (n : Nat) : Nat :=
  if n < 128 then 1
  else if n < 16384 then 2
  else if n < 2097152 then 3
  else if n < 268435456 then 4
  else 5

/-- Serialized byte length of a string: varint length prefix plus the
payload bytes (spec section 6; descriptions here are ASCII). -/
def string_pack_size (s : String) : Nat := varint_size s.length + s.length

/-- Serialized byte length of a `memo_data`: two 33-byte compressed public
keys, an 8-byte nonce and the varint-prefixed encrypted message. -/
def memo_data.pack_size (m : memo_data) : Nat :=
  33 + 33 + 8 + varint_size m.message.length + m.message.length

/-- Serialized byte length of an optional memo: 0 when absent
(spec section 4.4). -/
def memo_pack_size : Option memo_data → Nat
  | none => 0
  | some m => m.pack_size

/-- The per-kilobyte surcharge of spec section 4.4:
`price_per_kbyte * ceil(bytes / 1024)`. -/
def calculate_data_fee (bytes price_per_kbyte : Nat) : Nat :=
  price_per_kbyte * ((bytes + 1023) / 1024)

/-- `asset_create_operation::fee_parameters_type` (header lines 175-180)
with the source's default member initializers. -/
structure asset_create_operation.fee_parameters_type where
  symbol3 : Nat := 500000 * GRAPHENE_BLOCKCHAIN_PRECISION
  symbol4 : Nat := 300000 * GRAPHENE_BLOCKCHAIN_PRECISION
  long_symbol : Nat := 5000 * GRAPHENE_BLOCKCHAIN_PRECISION
  price_per_kbyte : Nat := 10
deriving DecidableEq

/-- `asset_create_operation` (header lines 173-206). -/
structure asset_create_operation where
  fee : asset := {}
  issuer : account_id_type := 0
  symbol : String := ""
  precision : Nat := 0
  common_options : asset_options := {}
  bitasset_opts : Option bitasset_options := none
  is_prediction_market : Bool := false
  extensions : extensions_type := []
deriving DecidableEq

/-- `asset_create_operation::fee_payer` (header line 203). -/
def asset_create_operation.fee_payer (r : asset_create_operation) :
    account_id_type := r.issuer

/-- Modelled from the spec: the body of `asset_create_operation::validate`
(declared at header line 204) lives in `libraries/chain/asset_ops.cpp`,
outside the available source; this follows spec section 4.3, including
the shared `fee.amount ≥ 0` contract. -/
def asset_create_operation.validate (r : asset_create_operation) :
    Except error_kind Unit :=
  FC_ASSERT (0 ≤ r.fee.amount) <|
  FC_ASSERT (is_valid_symbol r.symbol = true) <|
  FC_ASSERT (r.precision ≤ 12) <|
  match r.common_options.validate with
  | .error k => .error k
  | .ok _ =>
    match r.bitasset_opts with
    | some b =>
      FC_ASSERT (r.common_options.flags &&& MARKET_ISSUED ≠ 0) <|
      (match b.validate with
       | .error k => .error k
       | .ok _ => .ok ())
    | none =>
      FC_ASSERT (r.common_options.flags &&& MARKET_ISSUED = 0) <|
      FC_ASSERT (r.is_prediction_market = false) (.ok ())

/-- Modelled from the spec: `asset_create_operation::calculate_fee`
(declared at header line 205) lives in `libraries/chain/asset_ops.cpp`,
outside the available source; this follows spec section 4.4: a base fee
chosen by symbol length plus the per-kilobyte description surcharge. -/
def asset_create_operation.calculate_fee (r : asset_create_operation)
    (k : asset_create_operation.fee_parameters_type) : share_type :=
  let base : Nat :=
    if r.symbol.length = 3 then k.symbol3
    else if r.symbol.length = 4 then k.symbol4
    else k.long_symbol
  ((base + calculate_data_fee (string_pack_size r.common_options.description)
      k.price_per_kbyte : Nat) : Int)

/-- `asset_global_settle_operation::fee_parameters_type` (header line 220). -/
structure asset_global_settle_operation.fee_parameters_type where
  fee : Nat := 500 * GRAPHENE_BLOCKCHAIN_PRECISION
deriving DecidableEq

/-- `asset_global_settle_operation` (header lines 218-230). -/
structure asset_global_settle_operation where
  fee : asset := {}
  issuer : account_id_type := 0
  asset_to_settle : asset_id_type := 0
  settle_price : price := {}
  extensions : extensions_type := []
deriving DecidableEq

/-- `asset_global_settle_operation::fee_payer` (header line 228). -/
def asset_global_settle_operation.fee_payer (r : asset_global_settle_operation) :
    account_id_type := r.issuer

/-- `asset_settle_operation::fee_parameters_type` (header lines 247-255). -/
structure asset_settle_operation.fee_parameters_type where
  fee : Nat := 100 * GRAPHENE_BLOCKCHAIN_PRECISION
deriving DecidableEq

/-- `asset_settle_operation` (header lines 245-266). -/
structure asset_settle_operation where
  fee : asset := {}
  account : account_id_type := 0
  amount : asset := {}
  extensions : extensions_type := []
deriving DecidableEq

/-- `asset_settle_operation::fee_payer` (header line 264). -/
def asset_settle_operation.fee_payer (r : asset_settle_operation) :
    account_id_type := r.account

/-- `asset_settle_cancel_operation::fee_parameters_type` (header line 274):
an empty record. -/
structure asset_settle_cancel_operation.fee_parameters_type where
deriving DecidableEq

/-- `asset_settle_cancel_operation` (header lines 272-289). -/
structure asset_settle_cancel_operation where
  fee : asset := {}
  settlement : force_settlement_id_type := 0
  account : account_id_type := 0
  amount : asset := {}
  extensions : extensions_type := []
deriving DecidableEq

/-- `asset_settle_cancel_operation::fee_payer` (header line 284). -/
def asset_settle_cancel_operation.fee_payer (r : asset_settle_cancel_operation) :
    account_id_type := r.account

/-- `asset_settle_cancel_operation::validate` (header line 285): the
inline body is empty, so validation always succeeds. -/
def asset_settle_cancel_operation.validate (_ : asset_settle_cancel_operation) :
    Except error_kind Unit := .ok ()

/-- `asset_settle_cancel_operation::calculate_fee` (header lines 287-288):
the inline body returns 0. -/
def asset_settle_cancel_operation.calculate_fee
    (_ : asset_settle_cancel_operation)
    (_ : asset_settle_cancel_operation.fee_parameters_type) : share_type := 0

/-- `asset_fund_fee_pool_operation::fee_parameters_type` (header line 296). -/
structure asset_fund_fee_pool_operation.fee_parameters_type where
  fee : Nat := GRAPHENE_BLOCKCHAIN_PRECISION
deriving DecidableEq

/-- `asset_fund_fee_pool_operation` (header lines 294-306). -/
structure asset_fund_fee_pool_operation where
  fee : asset := {}
  from_account : account_id_type := 0
  asset_id : asset_id_type := 0
  amount : share_type := 0
  extensions : extensions_type := []
deriving DecidableEq

/-- `asset_fund_fee_pool_operation::fee_payer` (header line 304). -/
def asset_fund_fee_pool_operation.fee_payer (r : asset_fund_fee_pool_operation) :
    account_id_type := r.from_account

/-- `asset_update_operation::fee_parameters_type` (header lines 325-328)
with the source's default member initializers. -/
structure asset_update_operation.fee_parameters_type where
  fee : Nat := 500 * GRAPHENE_BLOCKCHAIN_PRECISION
  price_per_kbyte : Nat := 10
deriving DecidableEq

/-- `asset_update_operation` (header lines 323-344). -/
structure asset_update_operation where
  fee : asset := {}
  issuer : account_id_type := 0
  asset_to_update : asset_id_type := 0
  new_issuer : Option account_id_type := none
  new_options : asset_options := {}
  extensions : extensions_type := []
deriving DecidableEq

/-- `asset_update_operation::fee_payer` (header line 341). -/
def asset_update_operation.fee_payer (r : asset_update_operation) :
    account_id_type := r.issuer

/-- Modelled from the spec: `asset_update_operation::calculate_fee`
(declared at header line 343) lives in `libraries/chain/asset_ops.cpp`,
outside the available source; per spec section 4.4 it is the base fee
plus the per-kilobyte surcharge on the new options' description. -/
def asset_update_operation.calculate_fee (r : asset_update_operation)
    (k : asset_update_operation.fee_parameters_type) : share_type :=
  ((k.fee + calculate_data_fee (string_pack_size r.new_options.description)
      k.price_per_kbyte : Nat) : Int)

/-- `asset_update_bitasset_operation::fee_parameters_type` (header line 361). -/
structure asset_update_bitasset_operation.fee_parameters_type where
  fee : Nat := 500 * GRAPHENE_BLOCKCHAIN_PRECISION
deriving DecidableEq

/-- `asset_update_bitasset_operation` (header lines 359-372). -/
structure asset_update_bitasset_operation where
  fee : asset := {}
  issuer : account_id_type := 0
  asset_to_update : asset_id_type := 0
  new_options : bitasset_options := {}
  extensions : extensions_type := []
deriving DecidableEq

/-- `asset_update_bitasset_operation::fee_payer` (header line 370). -/
def asset_update_bitasset_operation.fee_payer
    (r : asset_update_bitasset_operation) : account_id_type := r.issuer

/-- `asset_update_feed_producers_operation::fee_parameters_type`
(header line 392). -/
structure asset_update_feed_producers_operation.fee_parameters_type where
  fee : Nat := 500 * GRAPHENE_BLOCKCHAIN_PRECISION
deriving DecidableEq

/-- `asset_update_feed_producers_operation` (header lines 390-403). -/
structure asset_update_feed_producers_operation where
  fee : asset := {}
  issuer : account_id_type := 0
  asset_to_update : asset_id_type := 0
  new_feed_producers : Finset account_id_type := ∅
  extensions : extensions_type := []
deriving DecidableEq

/-- `asset_update_feed_producers_operation::fee_payer` (header line 401). -/
def asset_update_feed_producers_operation.fee_payer
    (r : asset_update_feed_producers_operation) : account_id_type := r.issuer

/-- `asset_publish_feed_operation::fee_parameters_type` (header line 423). -/
structure asset_publish_feed_operation.fee_parameters_type where
  fee : Nat := GRAPHENE_BLOCKCHAIN_PRECISION
deriving DecidableEq

/-- `asset_publish_feed_operation` (header lines 421-433). -/
structure asset_publish_feed_operation where
  fee : asset := {}
  publisher : account_id_type := 0
  asset_id : asset_id_type := 0
  feed : price_feed := {}
  extensions : extensions_type := []
deriving DecidableEq

/-- `asset_publish_feed_operation::fee_payer` (header line 431). -/
def asset_publish_feed_operation.fee_payer (r : asset_publish_feed_operation) :
    account_id_type := r.publisher

/-- `asset_issue_operation::fee_parameters_type` (header lines 440-443)
with the source's default member initializers. -/
structure asset_issue_operation.fee_parameters_type where
  fee : Nat := 20 * GRAPHENE_BLOCKCHAIN_PRECISION
  price_per_kbyte : Nat := GRAPHENE_BLOCKCHAIN_PRECISION
deriving DecidableEq

/-- `asset_issue_operation` (header lines 438-458). -/
structure asset_issue_operation where
  fee : asset := {}
  issuer : account_id_type := 0
  asset_to_issue : asset := {}
  issue_to_account : account_id_type := 0
  memo : Option memo_data := none
  extensions : extensions_type := []
deriving DecidableEq

/-- `asset_issue_operation::fee_payer` (header line 455). -/
def asset_issue_operation.fee_payer (r : asset_issue_operation) :
    account_id_type := r.issuer

/-- Modelled from the spec: `asset_issue_operation::calculate_fee`
(declared at header line 457) lives in `libraries/chain/asset_ops.cpp`,
outside the available source; per spec section 4.4 it is the base fee
plus the per-kilobyte surcharge on the serialized memo (0 if absent). -/
def asset_issue_operation.calculate_fee (r : asset_issue_operation)
    (k : asset_issue_operation.fee_parameters_type) : share_type :=
  ((k.fee + calculate_data_fee (memo_pack_size r.memo) k.price_per_kbyte
      : Nat) : Int)

/-- `asset_reserve_operation::fee_parameters_type` (header line 468). -/
structure asset_reserve_operation.fee_parameters_type where
  fee : Nat := 20 * GRAPHENE_BLOCKCHAIN_PRECISION
deriving DecidableEq

/-- `asset_reserve_operation` (header lines 466-477). -/
structure asset_reserve_operation where
  fee : asset := {}
  payer : account_id_type := 0
  amount_to_reserve : asset := {}
  extensions : extensions_type := []
deriving DecidableEq

/-- `asset_reserve_operation::fee_payer` (header line 475). -/
def asset_reserve_operation.fee_payer (r : asset_reserve_operation) :
    account_id_type := r.payer

/-- `FC_REFLECT( graphene::chain::asset_options, … )` (header lines
481-494): the registered canonical serialization field order. -/
def asset_options.reflect_fields : List String :=
  ["max_supply", "market_fee_percent", "max_market_fee",
   "issuer_permissions", "flags", "core_exchange_rate",
   "whitelist_authorities", "blacklist_authorities",
   "whitelist_markets", "blacklist_markets", "description", "extensions"]

/-- `FC_REFLECT( graphene::chain::bitasset_options, … )` (header lines
495-503). -/
def bitasset_options.reflect_fields : List String :=
  ["feed_lifetime_sec", "minimum_feeds", "force_settlement_delay_sec",
   "force_settlement_offset_percent", "maximum_force_settlement_volume",
   "short_backing_asset", "extensions"]

/-- `FC_REFLECT( graphene::chain::maker_asset_options_extension, … )`
(header lines 505-510). -/
def maker_asset_options_extension.reflect_fields : List String :=
  ["is_maker_issued_asset", "maker_fee_percent", "maker_reward_percent",
   "maker_reward_asset", "daily_reward_decay_rate"]

/-- `FC_REFLECT( graphene::chain::asset_create_operation, … )` (header
lines 527-536). -/
def asset_create_operation.reflect_fields : List String :=
  ["fee", "issuer", "symbol", "precision", "common_options",
   "bitasset_opts", "is_prediction_market", "extensions"]

/-- `FC_REFLECT( graphene::chain::asset_update_operation, … )` (header
lines 537-544). -/
def asset_update_operation.reflect_fields : List String :=
  ["fee", "issuer", "asset_to_update", "new_issuer", "new_options",
   "extensions"]

/-- `FC_REFLECT( graphene::chain::asset_update_bitasset_operation, … )`
(header lines 545-551). -/
def asset_update_bitasset_operation.reflect_fields : List String :=
  ["fee", "issuer", "asset_to_update", "new_options", "extensions"]

/-- `FC_REFLECT( graphene::chain::asset_update_feed_producers_operation, … )`
(header lines 552-554). -/
def asset_update_feed_producers_operation.reflect_fields : List String :=
  ["fee", "issuer", "asset_to_update", "new_feed_producers", "extensions"]

/-- `FC_REFLECT( graphene::chain::asset_publish_feed_operation, … )`
(header lines 555-556). -/
def asset_publish_feed_operation.reflect_fields : List String :=
  ["fee", "publisher", "asset_id", "feed", "extensions"]

/-- `FC_REFLECT( graphene::chain::asset_settle_operation, … )` (header
line 557). -/
def asset_settle_operation.reflect_fields : List String :=
  ["fee", "account", "amount", "extensions"]

/-- `FC_REFLECT( graphene::chain::asset_settle_cancel_operation, … )`
(header line 558). -/
def asset_settle_cancel_operation.reflect_fields : List String :=
  ["fee", "settlement", "account", "amount", "extensions"]

/-- `FC_REFLECT( graphene::chain::asset_global_settle_operation, … )`
(header line 559). -/
def asset_global_settle_operation.reflect_fields : List String :=
  ["fee", "issuer", "asset_to_settle", "settle_price", "extensions"]

/-- `FC_REFLECT( graphene::chain::asset_issue_operation, … )` (header
lines 560-561). -/
def asset_issue_operation.reflect_fields : List String :=
  ["fee", "issuer", "asset_to_issue", "issue_to_account", "memo",
   "extensions"]

/-- `FC_REFLECT( graphene::chain::asset_reserve_operation, … )` (header
lines 562-563). -/
def asset_reserve_operation.reflect_fields : List String :=
  ["fee", "payer", "amount_to_reserve", "extensions"]

/-- `FC_REFLECT( graphene::chain::asset_fund_fee_pool_operation, … )`
(header line 565). -/
def asset_fund_fee_pool_operation.reflect_fields : List String :=
  ["fee", "from_account", "asset_id", "amount", "extensions"]

/-- The validity condition the specification states for
`maker_asset_options_extension`, including the condition that a positive
`maker_reward_percent` requires `maker_reward_asset` to be present. -/
def maker_spec_conditions (e : maker_asset_options_extension) : Prop :=
  e.daily_reward_decay_rate ≤ 10000 ∧ e.maker_reward_percent ≤ 10000 ∧
  e.maker_fee_percent ≤ 10000 ∧
  (e.is_maker_issued_asset = true → e.maker_reward_percent = 0) ∧
  (0 < e.maker_reward_percent → e.maker_reward_asset.isSome = true)

/-- The conjunction of the conditions checked by `asset_options.validate`,
written exactly as the FC_ASSERT chain tests them. -/
def asset_options.valid_conditions (o : asset_options) : Prop :=
  0 < o.max_supply ∧ o.max_supply ≤ GRAPHENE_MAX_SHARE_SUPPLY ∧
  o.market_fee_percent ≤ 10000 ∧
  0 ≤ o.max_market_fee ∧ o.max_market_fee ≤ GRAPHENE_MAX_SHARE_SUPPLY ∧
  o.flags &&& not16 o.issuer_permissions = 0 ∧
  o.issuer_permissions &&& not16 UIA_ASSET_ISSUER_PERMISSION_MASK = 0 ∧
  ¬ (o.whitelist_markets ∩ o.blacklist_markets).Nonempty ∧
  0 < o.core_exchange_rate.base.amount ∧
  0 < o.core_exchange_rate.quote.amount ∧
  o.core_exchange_rate.base.asset_id ≠ o.core_exchange_rate.quote.asset_id ∧
  (∀ e ∈ o.extensions, e.validate_ok = true) ∧
  (o.extensions.map asset_options_extension.tag).Nodup

/-- The disjunction of failure causes that the specification lists for
`asset_options.validate`, stated in the words of the specification: a bit
of `flags` outside `issuer_permissions` (and of `issuer_permissions`
outside the mask) is phrased through `Nat.testBit`. -/
def asset_options_spec_violation (o : asset_options) : Prop :=
  o.max_supply ≤ 0 ∨ GRAPHENE_MAX_SHARE_SUPPLY < o.max_supply ∨
  10000 < o.market_fee_percent ∨
  o.max_market_fee < 0 ∨ GRAPHENE_MAX_SHARE_SUPPLY < o.max_market_fee ∨
  (∃ i, o.flags.testBit i = true ∧ o.issuer_permissions.testBit i = false) ∨
  (∃ i, o.issuer_permissions.testBit i = true ∧
        UIA_ASSET_ISSUER_PERMISSION_MASK.testBit i = false) ∨
  (o.whitelist_markets ∩ o.blacklist_markets).Nonempty ∨
  o.core_exchange_rate.base.amount ≤ 0 ∨
  o.core_exchange_rate.quote.amount ≤ 0 ∨
  o.core_exchange_rate.base.asset_id = o.core_exchange_rate.quote.asset_id ∨
  (∃ e ∈ o.extensions, ¬ e.validate = .ok ()) ∨
  ¬ (o.extensions.map asset_options_extension.tag).Nodup

/-- The symbol-validity condition as the specification words it: length
3..16, uppercase first and last characters, characters drawn from
uppercase letters, digits and the dot, and at most one dot. -/
def symbol_spec (s : String) : Prop :=
  3 ≤ s.toList.length ∧ s.toList.length ≤ 16 ∧
  (∃ c, s.toList.head? = some c ∧ 'A' ≤ c ∧ c ≤ 'Z') ∧
  (∃ c, s.toList.getLast? = some c ∧ 'A' ≤ c ∧ c ≤ 'Z') ∧
  (∀ c ∈ s.toList, ('A' ≤ c ∧ c ≤ 'Z') ∨ ('0' ≤ c ∧ c ≤ '9') ∨ c = '.') ∧
  (s.toList.filter (fun c => c = '.')).length ≤ 1

/-- An FC_ASSERT step succeeds exactly when its condition holds and the
remainder of the body succeeds. -/
theorem FC_ASSERT_ok_iff (c : Prop) [Decidable c]
    (rest : Except error_kind Unit) :
    FC_ASSERT c rest = .ok () ↔ c ∧ rest = .ok () := by
  unfold FC_ASSERT
  split_ifs with h <;> simp [h]

/-- An FC_ASSERT step only ever raises `invariant_violation`, provided the
remainder of the body does so too. -/
theorem FC_ASSERT_no_unknown (c : Prop) [Decidable c]
    (rest : Except error_kind Unit)
    (hrest : ∀ k, rest = .error k → k = .invariant_violation) :
    ∀ k, FC_ASSERT c rest = .error k → k = .invariant_violation := by
  intro k h
  unfold FC_ASSERT at h
  split_ifs at h with hc
  · exact hrest k h
  · injection h with h2
    exact h2.symm

/-- The boolean `validate_ok` agrees with success of `validate`. -/
theorem asset_options_extension.validate_ok_eq_true_iff
    (e : asset_options_extension) :
    e.validate_ok = true ↔ e.validate = .ok () := by
  unfold asset_options_extension.validate_ok
  cases hv : e.validate with
  | ok u => cases u; simp
  | error k => simp

/-- Success of `asset_options.validate` is the conjunction of its checks. -/
theorem options_validate_ok_iff (o : asset_options) :
    o.validate = .ok () ↔ o.valid_conditions := by
  unfold asset_options.validate asset_options.valid_conditions
  simp only [FC_ASSERT_ok_iff, and_true]

/-- Every failure of `asset_options.validate` has kind
`invariant_violation`. -/
theorem options_validate_error_kind (o : asset_options) :
    ∀ k, o.validate = .error k → k = .invariant_violation := by
  unfold asset_options.validate
  repeat apply FC_ASSERT_no_unknown
  intro k h
  exact Except.noConfusion h

/-- `asset_options.validate` either succeeds or raises
`invariant_violation`. -/
theorem options_validate_cases (o : asset_options) :
    o.validate = .ok () ∨ o.validate = .error .invariant_violation := by
  cases hv : o.validate with
  | ok u => cases u; exact Or.inl rfl
  | error k =>
    have hk := options_validate_error_kind o k hv
    subst hk
    exact Or.inr rfl

/-- For a 16-bit value `a`, `a & ~b == 0` says exactly that every set bit
of `a` is also set in `b`. -/
theorem land_not16_eq_zero_iff (a b : Nat) (ha : a < 65536) :
    a &&& not16 b = 0 ↔ ∀ i, a.testBit i = true → b.testBit i = true := by
  have h65535 : (65535 : Nat) = 2 ^ 16 - 1 := by norm_num
  have hnb : ∀ i, (not16 b).testBit i = (decide (i < 16) ^^ b.testBit i) := by
    intro i
    rw [not16, h65535, Nat.testBit_xor, Nat.testBit_two_pow_sub_one]
  have hahigh : ∀ i, 16 ≤ i → a.testBit i = false := by
    intro i hge
    have hlt : a < 2 ^ i := by
      calc a < 2 ^ 16 := by omega
        _ ≤ 2 ^ i := Nat.pow_le_pow_right (by norm_num) hge
    exact Nat.testBit_lt_two_pow hlt
  constructor
  · intro h i hi
    have hz : (a &&& not16 b).testBit i = false := by
      rw [h]; exact Nat.zero_testBit i
    rw [Nat.testBit_and, hnb, hi] at hz
    have hilt : i < 16 := by
      by_contra hge
      rw [hahigh i (by omega)] at hi
      exact Bool.noConfusion hi
    simp [hilt] at hz
    exact hz
  · intro h
    apply Nat.eq_of_testBit_eq
    intro i
    rw [Nat.zero_testBit, Nat.testBit_and, hnb]
    by_cases hai : a.testBit i = true
    · have hilt : i < 16 := by
        by_contra hge
        rw [hahigh i (by omega)] at hai
        exact Bool.noConfusion hai
      rw [hai, h i hai]
      simp [hilt]
    · rw [Bool.not_eq_true] at hai
      rw [hai]
      simp

/-- The FC_ASSERT conditions of `asset_options.validate` are, for
representable 16-bit bitsets, exactly the negation of the failure causes
the specification lists. -/
theorem options_conditions_iff_not_violation (o : asset_options)
    (hf : o.flags < 65536) (hp : o.issuer_permissions < 65536) :
    o.valid_conditions ↔ ¬ asset_options_spec_violation o := by
  unfold asset_options.valid_conditions asset_options_spec_violation
  constructor
  · rintro ⟨h1, h2, h3, h4, h5, h6, h7, h8, h9, h10, h11, h12, h13⟩
    simp only [not_or]
    have hb6 := (land_not16_eq_zero_iff o.flags o.issuer_permissions hf).mp h6
    have hb7 := (land_not16_eq_zero_iff o.issuer_permissions
      UIA_ASSET_ISSUER_PERMISSION_MASK hp).mp h7
    refine ⟨not_le.mpr h1, not_lt.mpr h2, not_lt.mpr h3, not_lt.mpr h4,
      not_lt.mpr h5, ?_, ?_, h8, not_le.mpr h9, not_le.mpr h10, h11, ?_,
      fun hn => hn h13⟩
    · rintro ⟨i, hi1, hi2⟩
      rw [hb6 i hi1] at hi2
      exact Bool.noConfusion hi2
    · rintro ⟨i, hi1, hi2⟩
      rw [hb7 i hi1] at hi2
      exact Bool.noConfusion hi2
    · rintro ⟨e, he, hne⟩
      exact hne
        ((asset_options_extension.validate_ok_eq_true_iff e).mp (h12 e he))
  · intro hv
    simp only [not_or] at hv
    obtain ⟨n1, n2, n3, n4, n5, n6, n7, n8, n9, n10, n11, n12, n13⟩ := hv
    refine ⟨not_le.mp n1, not_lt.mp n2, not_lt.mp n3, not_lt.mp n4,
      not_lt.mp n5, ?_, ?_, n8, not_le.mp n9, not_le.mp n10, n11, ?_,
      by tauto⟩
    · refine (land_not16_eq_zero_iff o.flags o.issuer_permissions hf).mpr ?_
      intro i hi
      cases hbit : o.issuer_permissions.testBit i
      · exact absurd ⟨i, hi, hbit⟩ n6
      · rfl
    · refine (land_not16_eq_zero_iff o.issuer_permissions
        UIA_ASSET_ISSUER_PERMISSION_MASK hp).mpr ?_
      intro i hi
      cases hbit : UIA_ASSET_ISSUER_PERMISSION_MASK.testBit i
      · exact absurd ⟨i, hi, hbit⟩ n7
      · rfl
    · intro e he
      rw [asset_options_extension.validate_ok_eq_true_iff]
      by_contra hne
      exact n12 ⟨e, he, hne⟩

/-- Every failure of `bitasset_options.validate` has kind
`invariant_violation`. -/
theorem bitoptions_validate_error_kind (b : bitasset_options) :
    ∀ k, b.validate = .error k → k = .invariant_violation := by
  unfold bitasset_options.validate
  repeat apply FC_ASSERT_no_unknown
  intro k h
  exact Except.noConfusion h

/-- Every failure of `asset_create_operation.validate` has kind
`invariant_violation`. -/
theorem create_validate_error_kind
    (r : asset_create_operation) :
    ∀ k, r.validate = .error k → k = .invariant_violation := by
  unfold asset_create_operation.validate
  apply FC_ASSERT_no_unknown
  apply FC_ASSERT_no_unknown
  apply FC_ASSERT_no_unknown
  cases hv : r.common_options.validate with
  | error k2 =>
    intro k h
    injection h with h2
    subst h2
    exact options_validate_error_kind r.common_options k2 hv
  | ok u =>
    cases u
    cases hb : r.bitasset_opts with
    | some b =>
      apply FC_ASSERT_no_unknown
      cases hbv : b.validate with
      | error k3 =>
        intro k h
        injection h with h2
        subst h2
        exact bitoptions_validate_error_kind b k3 hbv
      | ok u2 =>
        cases u2
        intro k h
        exact Except.noConfusion h
    | none =>
      apply FC_ASSERT_no_unknown
      apply FC_ASSERT_no_unknown
      intro k h
      exact Except.noConfusion h

/-- `asset_create_operation.validate` either succeeds or raises
`invariant_violation`. -/
theorem create_validate_cases (r : asset_create_operation) :
    r.validate = .ok () ∨ r.validate = .error .invariant_violation := by
  cases hv : r.validate with
  | ok u => cases u; exact Or.inl rfl
  | error k =>
    have hk := create_validate_error_kind r k hv
    subst hk
    exact Or.inr rfl

/-- Success of `asset_create_operation.validate` is the conjunction of its
checks, with the bitasset-options branch spelt by presence. -/
theorem create_validate_ok_iff (r : asset_create_operation) :
    r.validate = .ok () ↔
      (0 ≤ r.fee.amount ∧ is_valid_symbol r.symbol = true ∧ r.precision ≤ 12 ∧
       r.common_options.validate = .ok () ∧
       (match r.bitasset_opts with
        | some b =>
            r.common_options.flags &&& MARKET_ISSUED ≠ 0 ∧ b.validate = .ok ()
        | none =>
            r.common_options.flags &&& MARKET_ISSUED = 0 ∧
            r.is_prediction_market = false)) := by
  unfold asset_create_operation.validate
  cases hv : r.common_options.validate with
  | error k =>
    simp only [FC_ASSERT_ok_iff]
    simp
  | ok u =>
    cases u
    cases hb : r.bitasset_opts with
    | some b =>
      cases hbv : b.validate with
      | error k2 => simp only [FC_ASSERT_ok_iff]; simp [hbv]
      | ok u2 => cases u2; simp only [FC_ASSERT_ok_iff]; simp [hbv]
    | none =>
      simp only [FC_ASSERT_ok_iff]
      simp [and_assoc]

/-- A character is classified uppercase exactly per the A-Z range. -/
theorem upper_AZ_eq_true_iff (c : Char) :
    upper_AZ c = true ↔ ('A' ≤ c ∧ c ≤ 'Z') := by
  simp [upper_AZ]

/-- A character is admissible in a symbol exactly per the spec's class. -/
theorem symbol_char_eq_true_iff (c : Char) :
    symbol_char c = true ↔
      (('A' ≤ c ∧ c ≤ 'Z') ∨ ('0' ≤ c ∧ c ≤ '9') ∨ c = '.') := by
  simp [symbol_char, upper_AZ, or_assoc]

/-- The executable symbol checker agrees with the declarative condition. -/
theorem is_valid_symbol_iff_spec (s : String) :
    is_valid_symbol s = true ↔ symbol_spec s := by
  unfold is_valid_symbol symbol_spec
  simp only [Bool.and_eq_true, decide_eq_true_eq, List.all_eq_true,
    symbol_char_eq_true_iff]
  constructor
  · rintro ⟨⟨⟨⟨⟨hlen3, hlen16⟩, hhead⟩, hlast⟩, hall⟩, hdot⟩
    refine ⟨hlen3, hlen16, ?_, ?_, hall, hdot⟩
    · cases hh : s.toList.head? with
      | none => rw [hh] at hhead; exact absurd hhead (by simp)
      | some c =>
        rw [hh] at hhead
        exact ⟨c, rfl, (upper_AZ_eq_true_iff c).mp hhead⟩
    · cases hh : s.toList.getLast? with
      | none => rw [hh] at hlast; exact absurd hlast (by simp)
      | some c =>
        rw [hh] at hlast
        exact ⟨c, rfl, (upper_AZ_eq_true_iff c).mp hlast⟩
  · rintro ⟨hlen3, hlen16, ⟨c1, hc1, hc1u⟩, ⟨c2, hc2, hc2u⟩, hall, hdot⟩
    refine ⟨⟨⟨⟨⟨hlen3, hlen16⟩, ?_⟩, ?_⟩, hall⟩, hdot⟩
    · rw [hc1]
      exact (upper_AZ_eq_true_iff c1).mpr hc1u
    · rw [hc2]
      exact (upper_AZ_eq_true_iff c2).mpr hc2u

/-- The varint length prefix never shrinks as the length grows. -/
theorem varint_size_mono (m n : Nat) (h : m ≤ n) :
    varint_size m ≤ varint_size n := by
  unfold varint_size
  split_ifs <;> omega

/-- Serialized string size never shrinks as the length grows. -/
theorem string_pack_size_mono (s t : String) (h : s.length ≤ t.length) :
    string_pack_size s ≤ string_pack_size t :=
  Nat.add_le_add (varint_size_mono _ _ h) h

/-- The per-kilobyte surcharge never shrinks as the payload grows. -/
theorem calculate_data_fee_mono (b1 b2 p : Nat) (h : b1 ≤ b2) :
    calculate_data_fee b1 p ≤ calculate_data_fee b2 p :=
  Nat.mul_le_mul_left p (Nat.div_le_div_right (by omega))

/-- C1, counterexample: at the record with `is_maker_issued_asset = false`,
`maker_reward_percent = 500` and `maker_reward_asset` absent, `validate`
succeeds although the claimed condition list (which requires a present
`maker_reward_asset` whenever `maker_reward_percent` is positive) fails:
the claimed equivalence is false at this input, because the inline
`validate` body never examines `maker_reward_asset`. -/
theorem maker_validate_missing_reward_asset_check :
    ¬ ((maker_asset_options_extension.validate
          { is_maker_issued_asset := false, maker_fee_percent := 0,
            maker_reward_percent := 500, maker_reward_asset := none,
            daily_reward_decay_rate := 200 } = .ok ()) ↔
        maker_spec_conditions
          { is_maker_issued_asset := false, maker_fee_percent := 0,
            maker_reward_percent := 500, maker_reward_asset := none,
            daily_reward_decay_rate := 200 }) := by
  unfold maker_spec_conditions
  decide

/-- C1, amended: `maker_asset_options_extension.validate` succeeds if and
only if `daily_reward_decay_rate ≤ 10000`, `maker_reward_percent ≤ 10000`,
`maker_fee_percent ≤ 10000` and (`is_maker_issued_asset` implies
`maker_reward_percent = 0`); when any of these is violated it fails with
kind `invariant_violation`; in particular every record with
`is_maker_issued_asset = true` and positive `maker_reward_percent` (such
as 500) fails with `invariant_violation`.  The condition
"`maker_reward_percent > 0` implies `maker_reward_asset` is present" is
not checked by `validate`. -/
theorem maker_validate_iff (e : maker_asset_options_extension) :
    (e.validate = .ok () ↔
      (e.daily_reward_decay_rate ≤ 10000 ∧ e.maker_reward_percent ≤ 10000 ∧
       e.maker_fee_percent ≤ 10000 ∧
       (e.is_maker_issued_asset = true → e.maker_reward_percent = 0)))
  ∧ (¬ (e.daily_reward_decay_rate ≤ 10000 ∧ e.maker_reward_percent ≤ 10000 ∧
        e.maker_fee_percent ≤ 10000 ∧
        (e.is_maker_issued_asset = true → e.maker_reward_percent = 0)) →
      e.validate = .error .invariant_violation)
  ∧ (e.is_maker_issued_asset = true → 0 < e.maker_reward_percent →
      e.validate = .error .invariant_violation) := by
  unfold maker_asset_options_extension.validate FC_ASSERT
  split_ifs with h1 h2 h3 h4 h5 <;> simp_all

/-- C1, witness: the spec's self-contradiction scenario, a maker-issued
record with `maker_reward_percent = 500`, fails with
`invariant_violation`, by `maker_validate_iff` at that record. -/
theorem maker_validate_iff_witness :
    maker_asset_options_extension.validate
      { is_maker_issued_asset := true, maker_fee_percent := 0,
        maker_reward_percent := 500, maker_reward_asset := none,
        daily_reward_decay_rate := 200 } = .error .invariant_violation :=
  (maker_validate_iff _).2.2 rfl (by decide)

/-- C2, counterexample: the default `price_per_kbyte` of
`asset_create_operation::fee_parameters_type` is the raw constant 10, not
10 units of `GRAPHENE_BLOCKCHAIN_PRECISION` as the claim states. -/
theorem create_price_per_kbyte_unscaled :
    ¬ (({} : asset_create_operation.fee_parameters_type).price_per_kbyte =
        10 * GRAPHENE_BLOCKCHAIN_PRECISION) := by
  decide

/-- C2, amended: the default-constructed `fee_parameters_type` values are,
in units of `GRAPHENE_BLOCKCHAIN_PRECISION`: `asset_create.symbol3 =
500000`, `symbol4 = 300000`, `long_symbol = 5000`; `asset_update.fee =
500`; `asset_issue.fee = 20` and `asset_issue.price_per_kbyte = 1`;
`asset_global_settle = 500`; `asset_settle = 100`; `asset_fund_fee_pool =
1`; `asset_update_bitasset = 500`; `asset_update_feed_producers = 500`;
`asset_publish_feed = 1`; `asset_reserve = 20` — but the `price_per_kbyte`
of `asset_create` and of `asset_update` is the raw constant 10, not
scaled by the precision. -/
theorem fee_parameter_defaults :
    ({} : asset_create_operation.fee_parameters_type).symbol3 =
      500000 * GRAPHENE_BLOCKCHAIN_PRECISION ∧
    ({} : asset_create_operation.fee_parameters_type).symbol4 =
      300000 * GRAPHENE_BLOCKCHAIN_PRECISION ∧
    ({} : asset_create_operation.fee_parameters_type).long_symbol =
      5000 * GRAPHENE_BLOCKCHAIN_PRECISION ∧
    ({} : asset_create_operation.fee_parameters_type).price_per_kbyte = 10 ∧
    ({} : asset_update_operation.fee_parameters_type).fee =
      500 * GRAPHENE_BLOCKCHAIN_PRECISION ∧
    ({} : asset_update_operation.fee_parameters_type).price_per_kbyte = 10 ∧
    ({} : asset_issue_operation.fee_parameters_type).fee =
      20 * GRAPHENE_BLOCKCHAIN_PRECISION ∧
    ({} : asset_issue_operation.fee_parameters_type).price_per_kbyte =
      1 * GRAPHENE_BLOCKCHAIN_PRECISION ∧
    ({} : asset_global_settle_operation.fee_parameters_type).fee =
      500 * GRAPHENE_BLOCKCHAIN_PRECISION ∧
    ({} : asset_settle_operation.fee_parameters_type).fee =
      100 * GRAPHENE_BLOCKCHAIN_PRECISION ∧
    ({} : asset_fund_fee_pool_operation.fee_parameters_type).fee =
      1 * GRAPHENE_BLOCKCHAIN_PRECISION ∧
    ({} : asset_update_bitasset_operation.fee_parameters_type).fee =
      500 * GRAPHENE_BLOCKCHAIN_PRECISION ∧
    ({} : asset_update_feed_producers_operation.fee_parameters_type).fee =
      500 * GRAPHENE_BLOCKCHAIN_PRECISION ∧
    ({} : asset_publish_feed_operation.fee_parameters_type).fee =
      1 * GRAPHENE_BLOCKCHAIN_PRECISION ∧
    ({} : asset_reserve_operation.fee_parameters_type).fee =
      20 * GRAPHENE_BLOCKCHAIN_PRECISION := by
  refine ⟨rfl, rfl, rfl, rfl, rfl, rfl, rfl, ?_, rfl, rfl, ?_, rfl, rfl,
    ?_, rfl⟩ <;> decide

/-- C3: for every `asset_settle_cancel_operation` record and every fee
parameter record, `calculate_fee` returns 0 and `validate` succeeds — in
particular also when `amount.amount = 0`, since the statement quantifies
over all records. -/
theorem settle_cancel_trivial (r : asset_settle_cancel_operation)
    (p : asset_settle_cancel_operation.fee_parameters_type) :
    r.calculate_fee p = 0 ∧ r.validate = .ok () := ⟨rfl, rfl⟩

/-- C4: every operation's `fee_payer` returns exactly the account-id field
the specification's table names: `issuer` for create, update,
update_bitasset, update_feed_producers, global_settle and issue;
`publisher` for publish_feed; `account` for settle and settle_cancel;
`payer` for reserve; `from_account` for fund_fee_pool. -/
theorem fee_payer_fields :
    (∀ r : asset_create_operation, r.fee_payer = r.issuer) ∧
    (∀ r : asset_update_operation, r.fee_payer = r.issuer) ∧
    (∀ r : asset_update_bitasset_operation, r.fee_payer = r.issuer) ∧
    (∀ r : asset_update_feed_producers_operation, r.fee_payer = r.issuer) ∧
    (∀ r : asset_global_settle_operation, r.fee_payer = r.issuer) ∧
    (∀ r : asset_issue_operation, r.fee_payer = r.issuer) ∧
    (∀ r : asset_publish_feed_operation, r.fee_payer = r.publisher) ∧
    (∀ r : asset_settle_operation, r.fee_payer = r.account) ∧
    (∀ r : asset_settle_cancel_operation, r.fee_payer = r.account) ∧
    (∀ r : asset_reserve_operation, r.fee_payer = r.payer) ∧
    (∀ r : asset_fund_fee_pool_operation, r.fee_payer = r.from_account) :=
  ⟨fun _ => rfl, fun _ => rfl, fun _ => rfl, fun _ => rfl, fun _ => rfl,
   fun _ => rfl, fun _ => rfl, fun _ => rfl, fun _ => rfl, fun _ => rfl,
   fun _ => rfl⟩

/-- C5: `asset_create_operation.validate` enforces that `bitasset_opts` is
present exactly when the `MARKET_ISSUED` bit is set in
`common_options.flags`; when present alongside the flag it must itself
validate; and a record with the flag set and `bitasset_opts` absent fails
with `invariant_violation`. -/
theorem create_market_issued_iff (r : asset_create_operation) :
    (r.validate = .ok () →
      ((r.common_options.flags &&& MARKET_ISSUED ≠ 0) ↔
        r.bitasset_opts.isSome = true))
  ∧ (∀ b, r.bitasset_opts = some b → r.validate = .ok () →
      b.validate = .ok ())
  ∧ (r.common_options.flags &&& MARKET_ISSUED ≠ 0 → r.bitasset_opts = none →
      r.validate = .error .invariant_violation) := by
  refine ⟨?_, ?_, ?_⟩
  · intro hok
    obtain ⟨-, -, -, -, hm⟩ :=
      (create_validate_ok_iff r).mp hok
    cases hb : r.bitasset_opts with
    | some b =>
      rw [hb] at hm
      exact ⟨fun _ => rfl, fun _ => hm.1⟩
    | none =>
      rw [hb] at hm
      constructor
      · intro hf
        exact absurd hm.1 hf
      · intro hs
        exact absurd hs (by simp)
  · intro b hb hok
    obtain ⟨-, -, -, -, hm⟩ :=
      (create_validate_ok_iff r).mp hok
    rw [hb] at hm
    exact hm.2
  · intro hflag hnone
    rcases create_validate_cases r with hok | herr
    · obtain ⟨-, -, -, -, hm⟩ :=
        (create_validate_ok_iff r).mp hok
      rw [hnone] at hm
      exact absurd hm.1 hflag
    · exact herr

/-- C5, witness: a create record with the `MARKET_ISSUED` flag set and no
`bitasset_opts` fails with `invariant_violation`, by
`create_market_issued_iff` at that record. -/
theorem create_market_issued_iff_witness :
    asset_create_operation.validate
      { symbol := "BTS",
        common_options :=
          { flags := MARKET_ISSUED,
            issuer_permissions := UIA_ASSET_ISSUER_PERMISSION_MASK } } =
      .error .invariant_violation :=
  (create_market_issued_iff _).2.2 (by decide) rfl

/-- C6: for every `asset_options` record with representable (16-bit)
`flags` and `issuer_permissions`, `validate` fails with kind
`invariant_violation` exactly when one of the failure causes the
specification lists holds — out-of-range `max_supply`,
`market_fee_percent` above 10000, out-of-range `max_market_fee`, a flag
bit outside `issuer_permissions`, a permission bit outside
`UIA_ASSET_ISSUER_PERMISSION_MASK`, overlapping whitelist and blacklist
markets, a non-positive or self-paired `core_exchange_rate`, a failing
extension or two extensions sharing a tag — and succeeds otherwise. -/
theorem asset_options_validate_iff (o : asset_options)
    (hf : o.flags < 65536) (hp : o.issuer_permissions < 65536) :
    (o.validate = .error .invariant_violation ↔
      asset_options_spec_violation o)
  ∧ (o.validate = .ok () ↔ ¬ asset_options_spec_violation o) := by
  have hcond := options_conditions_iff_not_violation o hf hp
  constructor
  · constructor
    · intro herr
      by_contra hviol
      have hok := (options_validate_ok_iff o).mpr (hcond.mpr hviol)
      rw [hok] at herr
      exact Except.noConfusion herr
    · intro hviol
      rcases options_validate_cases o with hok | herr
      · exact absurd hviol
          (by simpa using hcond.mp ((options_validate_ok_iff o).mp hok))
      · exact herr
  · rw [options_validate_ok_iff]
    exact hcond

/-- C6, witness: an options record whose `market_fee_percent` is 20000
fails with `invariant_violation`, by `asset_options_validate_iff` at that
record. -/
theorem asset_options_validate_iff_witness :
    asset_options.validate ({ market_fee_percent := 20000 } : asset_options) =
      .error .invariant_violation :=
  (asset_options_validate_iff { market_fee_percent := 20000 } (by decide)
      (by decide)).1.mpr
    (Or.inr (Or.inr (Or.inl (by decide))))

/-- C7: `is_valid_symbol` returns true exactly when the symbol's length is
between 3 and 16, its first and last characters are uppercase ASCII
letters, every character is an uppercase letter, a digit or a dot, and at
most one dot appears; and it classifies the spec's examples accordingly
("BTS", "ABC.XYZ" and the 16-character string accepted; "AB", "bts",
"A.B.C" and the 17-character string rejected). -/
theorem symbol_classification :
    (∀ s, is_valid_symbol s = true ↔ symbol_spec s) ∧
    is_valid_symbol "BTS" = true ∧
    is_valid_symbol "ABC.XYZ" = true ∧
    is_valid_symbol "ABCDEFGHIJKLMNOP" = true ∧
    is_valid_symbol "AB" = false ∧
    is_valid_symbol "bts" = false ∧
    is_valid_symbol "A.B.C" = false ∧
    is_valid_symbol "ABCDEFGHIJKLMNOPQ" = false :=
  ⟨is_valid_symbol_iff_spec, by decide, by decide, by decide, by decide,
   by decide, by decide, by decide⟩

/-- C8: `calculate_fee` is monotone in payload size — for `asset_create`
records differing only in the description, a longer description never
yields a smaller fee; for `asset_issue` records differing only in the
memo, a larger serialized memo never yields a smaller fee; for
`asset_update` records differing only in the new options' description, a
longer description never yields a smaller fee. -/
theorem calculate_fee_monotone :
    (∀ (r : asset_create_operation)
       (k : asset_create_operation.fee_parameters_type) (d1 d2 : String),
       d1.length ≤ d2.length →
       asset_create_operation.calculate_fee
           { r with common_options :=
               { r.common_options with description := d1 } } k ≤
         asset_create_operation.calculate_fee
           { r with common_options :=
               { r.common_options with description := d2 } } k)
  ∧ (∀ (r : asset_issue_operation)
       (k : asset_issue_operation.fee_parameters_type)
       (m1 m2 : Option memo_data),
       memo_pack_size m1 ≤ memo_pack_size m2 →
       asset_issue_operation.calculate_fee { r with memo := m1 } k ≤
         asset_issue_operation.calculate_fee { r with memo := m2 } k)
  ∧ (∀ (r : asset_update_operation)
       (k : asset_update_operation.fee_parameters_type) (d1 d2 : String),
       d1.length ≤ d2.length →
       asset_update_operation.calculate_fee
           { r with new_options :=
               { r.new_options with description := d1 } } k ≤
         asset_update_operation.calculate_fee
           { r with new_options :=
               { r.new_options with description := d2 } } k) := by
  refine ⟨?_, ?_, ?_⟩
  · intro r k d1 d2 h
    unfold asset_create_operation.calculate_fee
    simp only
    exact Int.ofNat_le.mpr
      (Nat.add_le_add_left
        (calculate_data_fee_mono _ _ _ (string_pack_size_mono d1 d2 h)) _)
  · intro r k m1 m2 h
    unfold asset_issue_operation.calculate_fee
    exact Int.ofNat_le.mpr
      (Nat.add_le_add_left (calculate_data_fee_mono _ _ _ h) _)
  · intro r k d1 d2 h
    unfold asset_update_operation.calculate_fee
    exact Int.ofNat_le.mpr
      (Nat.add_le_add_left
        (calculate_data_fee_mono _ _ _ (string_pack_size_mono d1 d2 h)) _)

/-- C8, witness: the three monotonicity statements instantiated at
default records with an empty versus a two-character description (and an
absent versus a present memo), by `calculate_fee_monotone`. -/
theorem calculate_fee_monotone_witness :
    asset_create_operation.calculate_fee
        { common_options := { description := "" } } {} ≤
      asset_create_operation.calculate_fee
        { common_options := { description := "AB" } } {} ∧
    asset_issue_operation.calculate_fee { memo := none } {} ≤
      asset_issue_operation.calculate_fee { memo := some {} } {} ∧
    asset_update_operation.calculate_fee
        { new_options := { description := "" } } {} ≤
      asset_update_operation.calculate_fee
        { new_options := { description := "AB" } } {} :=
  ⟨calculate_fee_monotone.1 {} {} "" "AB" (by decide),
   calculate_fee_monotone.2.1 {} {} none (some {}) (by decide),
   calculate_fee_monotone.2.2 {} {} "" "AB" (by decide)⟩

/-- C9: the canonical serialization field order registered by
`FC_REFLECT` for every record equals the order the specification
declares; in particular `asset_create_operation` serializes as fee,
issuer, symbol, precision, common_options, bitasset_opts,
is_prediction_market, extensions, and `maker_asset_options_extension` as
is_maker_issued_asset, maker_fee_percent, maker_reward_percent,
maker_reward_asset, daily_reward_decay_rate. -/
theorem reflect_field_orders :
    asset_create_operation.reflect_fields =
      ["fee", "issuer", "symbol", "precision", "common_options",
       "bitasset_opts", "is_prediction_market", "extensions"] ∧
    maker_asset_options_extension.reflect_fields =
      ["is_maker_issued_asset", "maker_fee_percent", "maker_reward_percent",
       "maker_reward_asset", "daily_reward_decay_rate"] ∧
    asset_update_operation.reflect_fields =
      ["fee", "issuer", "asset_to_update", "new_issuer", "new_options",
       "extensions"] ∧
    asset_update_bitasset_operation.reflect_fields =
      ["fee", "issuer", "asset_to_update", "new_options", "extensions"] ∧
    asset_update_feed_producers_operation.reflect_fields =
      ["fee", "issuer", "asset_to_update", "new_feed_producers",
       "extensions"] ∧
    asset_publish_feed_operation.reflect_fields =
      ["fee", "publisher", "asset_id", "feed", "extensions"] ∧
    asset_settle_operation.reflect_fields =
      ["fee", "account", "amount", "extensions"] ∧
    asset_settle_cancel_operation.reflect_fields =
      ["fee", "settlement", "account", "amount", "extensions"] ∧
    asset_global_settle_operation.reflect_fields =
      ["fee", "issuer", "asset_to_settle", "settle_price", "extensions"] ∧
    asset_issue_operation.reflect_fields =
      ["fee", "issuer", "asset_to_issue", "issue_to_account", "memo",
       "extensions"] ∧
    asset_reserve_operation.reflect_fields =
      ["fee", "payer", "amount_to_reserve", "extensions"] ∧
    asset_fund_fee_pool_operation.reflect_fields =
      ["fee", "from_account", "asset_id", "amount", "extensions"] ∧
    asset_options.reflect_fields =
      ["max_supply", "market_fee_percent", "max_market_fee",
       "issuer_permissions", "flags", "core_exchange_rate",
       "whitelist_authorities", "blacklist_authorities",
       "whitelist_markets", "blacklist_markets", "description",
       "extensions"] :=
  ⟨rfl, rfl, rfl, rfl, rfl, rfl, rfl, rfl, rfl, rfl, rfl, rfl, rfl⟩

/-- C10: the outcome of `maker_asset_options_extension.validate` is
independent of the `maker_reward_asset` field — replacing that field by
any value, absent or present, leaves the result unchanged. -/
theorem maker_validate_ignores_reward_asset
    (e : maker_asset_options_extension) (a : Option asset_id_type) :
    maker_asset_options_extension.validate { e with maker_reward_asset := a } =
    e.validate := rfl
